import Mathlib

/-
Verification development for the tfreadme README generator.

The program (main.go) reads `variables.tf` and `outputs.tf` from the current
directory, parses each with hcl.Unmarshal into a generic tree, extracts rows
(HclVar) from the `{block_type: [ {name: [ {field: value} ] } ] }` structure,
and prints markdown sections to stdout.

Modelling choices:
- Go maps (`map[string]interface{}`) are modelled as association lists; the
  list order stands for the (runtime-chosen, randomised) iteration order of
  the map.  Two association lists that are permutations of each other with
  the same distinct keys denote the same map observed in two different runs.
- `interface{}` values are modelled at each use site by exactly the dynamic
  types the Go code distinguishes via type assertions there.
- Each `fmt.Printf`/`Println`/template `Execute` call emits one string chunk;
  the program's stdout text is the concatenation (`String.join`) of the chunk
  list, and `log.Fatalf` / a runtime panic abort the run with the chunks
  already emitted.
- `strings.ToTitle` is modelled as per-character upper-casing (its effect on
  ASCII directory names).
- `html/template` escaping of `\x7b\x7bfield\x7d\x7d` substitutions is
  modelled by htmlEscape below (the five entities escaped in text context).
-/

namespace Tfreadme

/-- A field value inside a block's field map (`x["description"]` etc. in Go).
The extraction code only distinguishes strings (`.(string)`), booleans
(`.(bool)`) and anything else. -/
inductive FieldValue where
  | str (s : String)
  | boolean (b : Bool)
  | otherVal
deriving DecidableEq

/-- A block's field map: `map[string]interface{}` holding the fields. -/
abbrev FieldMap := List (String × FieldValue)

/-- One element of the block list: `map[string]interface{}` from block name to
its list of field maps (`{name: [ {field: value} ] }`). -/
abbrev Block := List (String × List FieldMap)

/-- The dynamic type of a top-level value, as distinguished by the assertion
`vars.([]map[string]interface\x7b\x7d)` in main.go: either the expected block
list or something else (which makes that assertion panic). -/
inductive TopVal where
  | blockList (bs : List Block)
  | nonBlockList
deriving DecidableEq

/-- What a readable file contains, after hcl.Unmarshal: either a parse error
or a parsed top-level map (`hclInput.(map[string]interface\x7b\x7d)`). -/
inductive Content where
  | parseFail
  | parsed (top : List (String × TopVal))
deriving DecidableEq

/-- The state of one of the two input files as seen by main.go:
absent (os.Stat reports not-exist), existing but unreadable
(ioutil.ReadFile errors), or readable with some content. -/
inductive FState where
  | absent
  | unreadable
  | readable (c : Content)
deriving DecidableEq

/-- HclVar from main.go: the row record for one variable/output. -/
structure HclVar where
  Name : String
  Description : String
  VarType : String
  DefaultVal : String
  Required : Bool
  Sensitive : Bool
deriving DecidableEq

/-- The zero value of HclVar, as produced by `make([]HclVar, n)` in Go. -/
def zeroHclVar : HclVar :=
  { Name := "", Description := "", VarType := "", DefaultVal := "",
    Required := false, Sensitive := false }

/-- Go map lookup `m[k]` on the association-list model.  Go map keys are
unique, so first-match lookup returns the map's value for the key. -/
def lookupKey {α : Type} : List (String × α) → String → Option α
  | [], _ => none
  | (k2, v) :: rest, k => if k2 = k then some v else lookupKey rest k

/-- `s, _ = x[k].(string)`: the string value of field k, or "" when the key
is missing or the value is not a string. -/
def getStr (x : FieldMap) (k : String) : String :=
  match lookupKey x k with
  | some (.str s) => s
  | _ => ""

/-- `b, _ = x[k].(bool)`: the boolean value of field k, or false when the key
is missing or the value is not a boolean. -/
def getBool (x : FieldMap) (k : String) : Bool :=
  match lookupKey x k with
  | some (.boolean b) => b
  | _ => false

/-- The row built by the inline variables loop of main.go (lines 88-105) for
one (name, field map) pair: description/type/default are extracted,
Required is set iff the extracted default is non-empty, and Sensitive is
never assigned (it keeps the zero value false). -/
def mkVarRow (name : String) (x : FieldMap) : HclVar :=
  { Name := name,
    Description := getStr x "description",
    VarType := getStr x "type",
    DefaultVal := getStr x "default",
    Required := getStr x "default" != "",
    Sensitive := false }

/-- The row built by the inline outputs loop of main.go (lines 141-151) for
one (name, field map) pair: only description and sensitive are extracted;
VarType/DefaultVal/Required keep their zero values. -/
def mkOutRow (name : String) (x : FieldMap) : HclVar :=
  { Name := name,
    Description := getStr x "description",
    VarType := "",
    DefaultVal := "",
    Required := false,
    Sensitive := getBool x "sensitive" }

/-- The row built by hclTable (part_000 lines 195-216) for one
(name, field map) pair: all five known fields are extracted, and Required is
set iff the extracted default is EMPTY (the opposite of mkVarRow). -/
def mkHclRow (name : String) (x : FieldMap) : HclVar :=
  { Name := name,
    Description := getStr x "description",
    VarType := getStr x "type",
    DefaultVal := getStr x "default",
    Required := getStr x "default" == "",
    Sensitive := getBool x "sensitive" }

/-- The (name, field map) pairs visited by the two inner loops
`for name, v := range varmap { for _, x := range v.([]...) }`, in iteration
order. -/
def pairsOf (b : Block) : List (String × FieldMap) :=
  b.flatMap (fun p => p.2.map (fun x => (p.1, x)))

/-- The inline variables loop of main.go (lines 86-108):
`hclVars := make([]HclVar, len(vars))` followed by
`hclVars[varindex] = hclvar` inside the inner loops, so index varindex ends
up holding the row of the LAST (name, field map) pair iterated in block map
varindex, or the zero HclVar when the block map yields no pair. -/
def extractVars (bs : List Block) : List HclVar :=
  bs.map (fun b => (pairsOf b).foldl (fun _ p => mkVarRow p.1 p.2) zeroHclVar)

/-- The inline outputs loop of main.go (lines 138-154), same indexed-write
shape as extractVars but building output rows. -/
def extractOutputs (bs : List Block) : List HclVar :=
  bs.map (fun b => (pairsOf b).foldl (fun _ p => mkOutRow p.1 p.2) zeroHclVar)

/-- hclTable from part_000 (lines 195-216): rows are APPENDED, one per
(name, field map) pair, in iteration order. -/
def hclTable (bs : List Block) : List HclVar :=
  bs.flatMap (fun b => (pairsOf b).map (fun p => mkHclRow p.1 p.2))

/-- Builds the block list in which block i declares exactly one name with
exactly one field map — the shape hcl.Unmarshal produces for a .tf file with
one `variable "name" { ... }` block per list element. -/
def toDoc (d : List (String × FieldMap)) : List Block :=
  d.map (fun p => [(p.1, [p.2])])

/-- The number of declared named blocks in a parsed block list: one per
(name, field-map list) entry of each block map. -/
def namedBlockCount (bs : List Block) : Nat :=
  (bs.map List.length).sum

/-- html/template text-context escaping of one character: the five HTML
special characters become entities, every other character is unchanged.
The markdown pipe '|' is NOT escaped. -/
def escChar (c : Char) : List Char :=
  if c = '&' then "&amp;".data
  else if c = '<' then "&lt;".data
  else if c = '>' then "&gt;".data
  else if c = '"' then "&#34;".data
  else if c = '\'' then "&#39;".data
  else [c]

/-- html/template escaping of a whole substituted field value. -/
def htmlEscape (s : String) : String :=
  String.mk (s.data.flatMap escChar)

/-- strings.ToTitle on the working-directory base name, modelled as
per-character upper-casing. -/
def goToTitle (s : String) : String :=
  String.mk (s.data.map Char.toUpper)

/-- The title chunk printed by printTitle:
`fmt.Printf("\n# %s Terraform Module\n", strings.ToTitle(filepath.Base(wd)))`. -/
def titleChunk (wd : String) : String :=
  "\n# " ++ (goToTitle wd ++ " Terraform Module\n")

/-- The Overview heading chunk. -/
def overviewChunk : String := "\n## Overview\n\n"

/-- The Input heading chunk. -/
def inputHeadingChunk : String := "\n## Input\n\n"

/-- The Input table column-name line (fmt.Println appends the newline). -/
def inputColsChunk : String := "| Name | Description | Type | Default | Required |\n"

/-- The Input table separator line. -/
def inputSepChunk : String := "|------|-------------|:----:|:-----:|:-----:|\n"

/-- The Output heading chunk. -/
def outputHeadingChunk : String := "\n## Output\n\n"

/-- The Output table column-name line. -/
def outputColsChunk : String := "| Name | Description | Sensitive |\n"

/-- The Output table separator line. -/
def outputSepChunk : String := "|------|-------------|:----:|\n"

/-- The Usage heading chunk. -/
def usageChunkA : String := "\n## Usage\n"

/-- The empty code fence printed under Usage. -/
def usageChunkB : String := "\n```\n\n```\n"

/-- The Troubleshooting heading chunk. -/
def troubleChunk : String := "\n## Troubleshooting\n\n"

/-- One executed row of the input template
`| \x7b\x7b.Name\x7d\x7d | \x7b\x7b.Description\x7d\x7d | \x7b\x7b.VarType\x7d\x7d | \x7b\x7b.DefaultVal\x7d\x7d | \x7b\x7bif .Required\x7d\x7d yes \x7b\x7belse\x7d\x7d no \x7b\x7bend\x7d\x7d |`
followed by the template's trailing newline; substituted fields are
HTML-escaped by html/template, literal text is not. -/
def renderInputRow (r : HclVar) : String :=
  "| " ++ (htmlEscape r.Name ++
    (" | " ++ (htmlEscape r.Description ++
      (" | " ++ (htmlEscape r.VarType ++
        (" | " ++ (htmlEscape r.DefaultVal ++
          (" | " ++ ((if r.Required then " yes " else " no ") ++ " |\n")))))))))

/-- One executed row of the output template
`| \x7b\x7b.Name\x7d\x7d | \x7b\x7b.Description\x7d\x7d |  \x7b\x7bif .Sensitive\x7d\x7d yes \x7b\x7belse\x7d\x7d no \x7b\x7bend\x7d\x7d |`
(note the two spaces after the Description cell, as in the source). -/
def renderOutputRow (r : HclVar) : String :=
  "| " ++ (htmlEscape r.Name ++
    (" | " ++ (htmlEscape r.Description ++
      (" |  " ++ ((if r.Sensitive then " yes " else " no ") ++ " |\n")))))

/-- The chunks printed for the Input section once extraction succeeded:
heading, column line, separator line, then one chunk per row. -/
def inputSection (bs : List Block) : List String :=
  [inputHeadingChunk, inputColsChunk, inputSepChunk] ++
    (extractVars bs).map renderInputRow

/-- The chunks printed for the Output section once extraction succeeded. -/
def outputSection (bs : List Block) : List String :=
  [outputHeadingChunk, outputColsChunk, outputSepChunk] ++
    (extractOutputs bs).map renderOutputRow

/-- exists() from main.go (lines 45-57).  NOTE the source stats the constant
`variablesFilename`, not its argument: if variables.tf is absent it returns
false for EVERY file; otherwise it returns the target's content when the
target can be read, and false when ReadFile fails (absent or unreadable
target). -/
def existsFn : FState → FState → Option Content
  | .absent, _ => none
  | _, .readable c => some c
  | _, _ => none

/-- How a run ends early: log.Fatalf (fatal) or a runtime panic (panicked),
each carrying the chunks already printed to stdout. -/
inductive RunErr where
  | fatal (sofar : List String)
  | panicked (sofar : List String)
deriving DecidableEq

/-- One `if rawX, ok := exists(file); ok { ... }` section of main.go:
skip the section when exists() returned false; Fatalf on a parse failure;
look up the block key in the parsed top-level map and PANIC (nil/wrong-type
assertion `vars.([]map[string]interface\x7b\x7d)`) when the key is missing
or not a block list — the `!ok` branch only logs; otherwise extract and
print the section. -/
def handleSection (acc : List String) (content : Option Content) (key : String)
    (render : List Block → List String) : Except RunErr (List String) :=
  match content with
  | none => .ok acc
  | some .parseFail => .error (.fatal acc)
  | some (.parsed top) =>
    match lookupKey top key with
    | some (.blockList bs) => .ok (acc ++ render bs)
    | _ => .error (.panicked acc)

/-- main() of main.go as a function of the working-directory base name and
the two file states: title, Overview, variables section, outputs section
(both gated by exists(), which always stats variables.tf), then the static
Usage and Troubleshooting sections.  The result is the chunk list printed
to stdout, or the early termination with the chunks printed so far. -/
def runProgram (wd : String) (varsF outsF : FState) : Except RunErr (List String) := do
  let acc := [titleChunk wd, overviewChunk]
  let acc ← handleSection acc (existsFn varsF varsF) "variable" inputSection
  let acc ← handleSection acc (existsFn varsF outsF) "output" outputSection
  pure (acc ++ [usageChunkA, usageChunkB, troubleChunk])

/-- The chunks a run printed to stdout, whether or not it terminated
normally. -/
def chunksOf : Except RunErr (List String) → List String
  | .ok l => l
  | .error (.fatal l) => l
  | .error (.panicked l) => l

/-- Whether the run terminated normally (no Fatalf, no panic). -/
def isOk : Except RunErr (List String) → Bool
  | .ok _ => true
  | .error _ => false

/-- Whether the run died of a runtime panic. -/
def isPanicked : Except RunErr (List String) → Bool
  | .error (.panicked _) => true
  | _ => false

/-- The full stdout text of a run: the concatenation of its chunks. -/
def outputText (r : Except RunErr (List String)) : String :=
  String.join (chunksOf r)

/-- The number of markdown cell separators '|' in a string. -/
def pipeCount (s : String) : Nat :=
  s.data.count '|'

/-- Unfolding extraction on singleton-shaped documents: the inline variables
loop produces exactly one mkVarRow per named block, in document order. -/
theorem extractVars_toDoc (d : List (String × FieldMap)) :
    extractVars (toDoc d) = d.map (fun p => mkVarRow p.1 p.2) := by
  induction d with
  | nil => rfl
  | cons p d ih =>
    simp only [toDoc, List.map_cons, extractVars] at ih ⊢
    rw [ih]
    rfl

/-- Unfolding extraction on singleton-shaped documents: the inline outputs
loop produces exactly one mkOutRow per named block, in document order. -/
theorem extractOutputs_toDoc (d : List (String × FieldMap)) :
    extractOutputs (toDoc d) = d.map (fun p => mkOutRow p.1 p.2) := by
  induction d with
  | nil => rfl
  | cons p d ih =>
    simp only [toDoc, List.map_cons, extractOutputs] at ih ⊢
    rw [ih]
    rfl

/-- Unfolding hclTable on singleton-shaped documents: one mkHclRow per named
block, in document order. -/
theorem hclTable_toDoc (d : List (String × FieldMap)) :
    hclTable (toDoc d) = d.map (fun p => mkHclRow p.1 p.2) := by
  induction d with
  | nil => rfl
  | cons p d ih =>
    simp only [toDoc, List.map_cons, hclTable] at ih ⊢
    rw [List.flatMap_cons] at *
    rw [ih]
    rfl

/-- The indexed-write fold of the inline loops preserves the Required
invariant: the accumulator is either kept (block map exhausted) or replaced
by a mkVarRow, and both satisfy Required = (DefaultVal nonempty). -/
theorem foldl_mkVarRow_required (l : List (String × FieldMap)) (acc : HclVar)
    (h : acc.Required = (acc.DefaultVal != "")) :
    (l.foldl (fun _ p => mkVarRow p.1 p.2) acc).Required =
      ((l.foldl (fun _ p => mkVarRow p.1 p.2) acc).DefaultVal != "") := by
  induction l generalizing acc with
  | nil => exact h
  | cons p l ih =>
    rw [List.foldl_cons]
    exact ih (mkVarRow p.1 p.2) rfl

/-- A permutation of a list with at most one element is the identity. -/
theorem perm_length_le_one_eq {α : Type} {l1 l2 : List α}
    (h : l1.Perm l2) (hl : l1.length ≤ 1) : l1 = l2 := by
  match l1, hl with
  | [], _ => exact h.nil_eq
  | [x], _ => exact List.singleton_perm.mp h
  | x :: y :: t, hl => simp at hl

/-- C1 counterexample: a parsed document of the documented shape in which one
block map declares two named blocks ("a" and "b").  The inline extraction
writes both rows to the same index `hclVars[varindex]`, so it produces one
row, not one row per declared named block (two). -/
theorem c1_counterexample :
    namedBlockCount ([[("a", [[]]), ("b", [[]])]] : List Block) = 2 ∧
    (extractVars ([[("a", [[]]), ("b", [[]])]] : List Block)).length = 1 ∧
    (extractVars ([[("a", [[]]), ("b", [[]])]] : List Block)).length ≠
      namedBlockCount ([[("a", [[]]), ("b", [[]])]] : List Block) := by
  decide

/-- C1 (amended): when every block map declares exactly one name with exactly
one field map — the shape the HCL parser produces for a .tf file — each
extraction stage (the two inline loops of main.go and hclTable of part_000)
produces a flat list with exactly one row per declared named block, in
document order. -/
theorem c1_one_row_per_block (d : List (String × FieldMap)) :
    extractVars (toDoc d) = d.map (fun p => mkVarRow p.1 p.2) ∧
    extractOutputs (toDoc d) = d.map (fun p => mkOutRow p.1 p.2) ∧
    hclTable (toDoc d) = d.map (fun p => mkHclRow p.1 p.2) ∧
    (extractVars (toDoc d)).length = namedBlockCount (toDoc d) ∧
    namedBlockCount (toDoc d) = d.length := by
  have hcount : namedBlockCount (toDoc d) = d.length := by
    induction d with
    | nil => rfl
    | cons p d ih =>
      simp [namedBlockCount, toDoc] at ih ⊢
      omega
  refine ⟨extractVars_toDoc d, extractOutputs_toDoc d, hclTable_toDoc d, ?_, hcount⟩
  rw [extractVars_toDoc d, hcount, List.length_map]

/-- C2 counterexample: a variable block whose field map declares
sensitive = true.  The inline variables loop of main.go never assigns
Sensitive, so the produced row has Sensitive = false even though the field
is present and true — the sensitive field is not mapped into the row. -/
theorem c2_counterexample :
    extractVars ([[("v", [[("sensitive", FieldValue.boolean true)]])]] : List Block) =
      [{ Name := "v", Description := "", VarType := "", DefaultVal := "",
         Required := false, Sensitive := false }] ∧
    getBool [("sensitive", FieldValue.boolean true)] "sensitive" = true := by
  decide

/-- C2 (amended): hclTable maps all five known fields (name, description,
type, default, sensitive) into the row; the inline variables loop of main.go
maps name, description, type and default but leaves Sensitive false, and the
inline outputs loop maps name, description and sensitive but leaves
VarType and DefaultVal empty (and Required false). -/
theorem c2_field_mapping (n : String) (x : FieldMap) :
    hclTable [[(n, [x])]] =
      [{ Name := n, Description := getStr x "description",
         VarType := getStr x "type", DefaultVal := getStr x "default",
         Required := getStr x "default" == "",
         Sensitive := getBool x "sensitive" }] ∧
    extractVars [[(n, [x])]] =
      [{ Name := n, Description := getStr x "description",
         VarType := getStr x "type", DefaultVal := getStr x "default",
         Required := getStr x "default" != "", Sensitive := false }] ∧
    extractOutputs [[(n, [x])]] =
      [{ Name := n, Description := getStr x "description", VarType := "",
         DefaultVal := "", Required := false,
         Sensitive := getBool x "sensitive" }] :=
  ⟨rfl, rfl, rfl⟩

/-- C7: every row produced by the inline variables extraction satisfies
Required = true iff its extracted default value is a non-empty string, so a
variable with no default is marked not required. -/
theorem c7_required_invariant (bs : List Block) (r : HclVar)
    (h : r ∈ extractVars bs) : r.Required = (r.DefaultVal != "") := by
  obtain ⟨b, _, rfl⟩ := List.mem_map.mp h
  exact foldl_mkVarRow_required (pairsOf b) zeroHclVar rfl

/-- C7 witness: the invariant evaluated on a concrete variable with a
non-empty default. -/
theorem c7_witness :
    mkVarRow "a" [("default", FieldValue.str "x")] ∈
      extractVars ([[("a", [[("default", FieldValue.str "x")]])]] : List Block) ∧
    (mkVarRow "a" [("default", FieldValue.str "x")]).Required =
      ((mkVarRow "a" [("default", FieldValue.str "x")]).DefaultVal != "") :=
  ⟨by decide, c7_required_invariant [[("a", [[("default", FieldValue.str "x")]])]]
    (mkVarRow "a" [("default", FieldValue.str "x")]) (by decide)⟩

/-- C9 counterexample: one block map declaring the two names "a" and "b".
The two association lists are permutations of each other, i.e. they are the
same parsed Go map observed under two different (randomised) iteration
orders, yet the inline extraction produces different row lists — so two runs
on the same fixed input files can produce different output. -/
theorem c9_counterexample :
    ([("a", [[]]), ("b", [[]])] : Block).Perm [("b", [[]]), ("a", [[]])] ∧
    extractVars ([[("a", [[]]), ("b", [[]])]] : List Block) ≠
      extractVars ([[("b", [[]]), ("a", [[]])]] : List Block) := by
  decide

/-- C9 (amended): the transform is deterministic — independent of the
runtime's map iteration order — whenever every block map declares at most
one name: permuting the entries of each (at most singleton) block map leaves
both inline extractions unchanged. -/
theorem c9_deterministic_singleton (d1 d2 : List Block)
    (h : List.Forall₂ (fun b1 b2 => b1.Perm b2 ∧ b1.length ≤ 1) d1 d2) :
    extractVars d1 = extractVars d2 ∧ extractOutputs d1 = extractOutputs d2 := by
  have heq : d1 = d2 := by
    induction h with
    | nil => rfl
    | cons hp _ ih => rw [perm_length_le_one_eq hp.1 hp.2, ih]
  rw [heq]
  exact ⟨rfl, rfl⟩

/-- C9 witness: the amended determinism applied to a concrete singleton
block map. -/
theorem c9_witness :
    extractVars ([[("a", [[]])]] : List Block) =
      extractVars ([[("a", [[]])]] : List Block) ∧
    extractOutputs ([[("a", [[]])]] : List Block) =
      extractOutputs ([[("a", [[]])]] : List Block) :=
  c9_deterministic_singleton [[("a", [[]])]] [[("a", [[]])]]
    (List.Forall₂.cons ⟨List.Perm.refl _, by decide⟩ List.Forall₂.nil)

/-- C10 counterexample: a variable block with a non-empty default "x".  The
inline loop marks it Required = true, hclTable marks it Required = false, so
the two computations do not agree. -/
theorem c10_counterexample :
    extractVars ([[("a", [[("default", FieldValue.str "x")]])]] : List Block) ≠
      hclTable ([[("a", [[("default", FieldValue.str "x")]])]] : List Block) := by
  decide

/-- C10 (amended): on documents where each block map declares one name with
one field map, the inline variables loop and hclTable produce the same number
of rows in the same order with equal Name, Description, VarType and
DefaultVal — but their Required flags are negations of each other (the
inline loop sets Required iff the default is non-empty, hclTable iff it is
empty), and the inline loop always leaves Sensitive false. -/
theorem c10_refinement (d : List (String × FieldMap)) :
    List.Forall₂ (fun r s => r.Name = s.Name ∧ r.Description = s.Description ∧
        r.VarType = s.VarType ∧ r.DefaultVal = s.DefaultVal ∧
        s.Required = !r.Required ∧ r.Sensitive = false)
      (extractVars (toDoc d)) (hclTable (toDoc d)) := by
  rw [extractVars_toDoc, hclTable_toDoc]
  induction d with
  | nil => exact List.Forall₂.nil
  | cons p d ih =>
    refine List.Forall₂.cons ⟨rfl, rfl, rfl, rfl, ?_, rfl⟩ ih
    show (getStr p.2 "default" == "") = !(getStr p.2 "default" != "")
    simp [bne]

/-- String concatenation concatenates the underlying character lists. -/
theorem data_append (a b : String) : (a ++ b).data = a.data ++ b.data := by
  cases a
  cases b
  rfl

/-- pipeCount is additive over concatenation. -/
theorem pipeCount_append (a b : String) :
    pipeCount (a ++ b) = pipeCount a + pipeCount b := by
  unfold pipeCount
  rw [data_append]
  exact List.count_append ..

/-- escChar introduces no pipe and keeps every pipe: its pipe count is that
of the single input character. -/
theorem count_pipe_escChar (c : Char) :
    (escChar c).count '|' = if c = '|' then 1 else 0 := by
  unfold escChar
  by_cases h1 : c = '&'
  · subst h1; decide
  by_cases h2 : c = '<'
  · subst h2; decide
  by_cases h3 : c = '>'
  · subst h3; decide
  by_cases h4 : c = '"'
  · subst h4; decide
  by_cases h5 : c = '\''
  · subst h5; decide
  rw [if_neg h1, if_neg h2, if_neg h3, if_neg h4, if_neg h5]
  by_cases h : c = '|'
  · subst h; decide
  · simp [List.count_cons, beq_iff_eq, h, Ne.symm h]

/-- html/template escaping neither adds nor removes markdown pipes. -/
theorem pipeCount_htmlEscape (s : String) :
    pipeCount (htmlEscape s) = pipeCount s := by
  unfold pipeCount htmlEscape
  show (s.data.flatMap escChar).count '|' = s.data.count '|'
  induction s.data with
  | nil => rfl
  | cons c l ih =>
    rw [List.flatMap_cons, List.count_append, ih, List.count_cons,
      count_pipe_escChar]
    by_cases h : c = '|'
    · simp [h]
      omega
    · simp [h]

/-- Two strings differing at some character position are different. -/
theorem ne_of_data_at {a b : String} (i : Nat)
    (h : a.data[i]? ≠ b.data[i]?) : a ≠ b :=
  fun e => h (by rw [e])

/-- The title chunk always has a space as its third character (after the
newline and the single '#'), unlike the "## " section headings. -/
theorem titleChunk_data2 (wd : String) : (titleChunk wd).data[2]? = some ' ' := by
  unfold titleChunk
  rw [data_append, show "\n# ".data = ['\n', '#', ' '] from rfl]
  simp

/-- Every rendered input row starts with a pipe. -/
theorem renderInputRow_head (r : HclVar) :
    (renderInputRow r).data[0]? = some '|' := by
  unfold renderInputRow
  rw [data_append, show "| ".data = ['|', ' '] from rfl]
  simp

/-- Every rendered output row starts with a pipe. -/
theorem renderOutputRow_head (r : HclVar) :
    (renderOutputRow r).data[0]? = some '|' := by
  unfold renderOutputRow
  rw [data_append, show "| ".data = ['|', ' '] from rfl]
  simp

/-- A string that does not start with a pipe occurs in no list of rendered
input rows. -/
theorem count_rows_input (l : List HclVar) (s : String)
    (h : s.data[0]? ≠ some '|') : (l.map renderInputRow).count s = 0 := by
  rw [List.count_eq_zero]
  intro hm
  obtain ⟨r, _, hr⟩ := List.mem_map.mp hm
  exact h (by rw [← hr, renderInputRow_head])

/-- A string that does not start with a pipe occurs in no list of rendered
output rows. -/
theorem count_rows_output (l : List HclVar) (s : String)
    (h : s.data[0]? ≠ some '|') : (l.map renderOutputRow).count s = 0 := by
  rw [List.count_eq_zero]
  intro hm
  obtain ⟨r, _, hr⟩ := List.mem_map.mp hm
  exact h (by rw [← hr, renderOutputRow_head])

/-- Counting past a list head that differs from the counted string. -/
theorem count_two (s a : String) (l : List String) (hne : s ≠ a) :
    (a :: l).count s = l.count s := by
  have hb : (s == a) = false := beq_eq_false_iff_ne.mpr hne
  have hb2 : (a == s) = false := beq_eq_false_iff_ne.mpr (Ne.symm hne)
  simp [List.count_cons, hb, hb2]

/-- When both files are readable and parse to maps with the expected keys,
the run succeeds and emits: title, Overview, the Input section, the Output
section, Usage, Troubleshooting — in that order. -/
theorem run_both_ok (wd : String) (t1 t2 : List (String × TopVal))
    (bs1 bs2 : List Block)
    (h1 : lookupKey t1 "variable" = some (TopVal.blockList bs1))
    (h2 : lookupKey t2 "output" = some (TopVal.blockList bs2)) :
    runProgram wd (FState.readable (Content.parsed t1))
        (FState.readable (Content.parsed t2)) =
      Except.ok ((([titleChunk wd, overviewChunk] ++ inputSection bs1) ++
        outputSection bs2) ++ [usageChunkA, usageChunkB, troubleChunk]) := by
  simp only [runProgram, handleSection, existsFn, h1, h2]
  rfl

/-- C4 counterexample: with variables.tf existing but unreadable (and
outputs.tf absent) the program does NOT abort — the run ends normally and
still renders the Usage and Troubleshooting sections.  This falsifies
"on the first error encountered (unreadable input file, ...) the program
aborts immediately, performing no further extraction or rendering". -/
theorem c4_counterexample :
    isOk (runProgram "m" FState.unreadable FState.absent) = true ∧
    (chunksOf (runProgram "m" FState.unreadable FState.absent)).count
      usageChunkA = 1 ∧
    (chunksOf (runProgram "m" FState.unreadable FState.absent)).count
      troubleChunk = 1 := by
  decide

/-- C4 (amended): a PARSE failure aborts the run immediately — for the
variables file nothing beyond the already-printed title and Overview heading
is extracted or rendered, and for the outputs file nothing beyond the
already-printed Input section; an unreadable (or missing) input file is not
an error: its section is skipped and the program continues with the
remaining sections. -/
theorem c4_error_handling (wd : String) (o : FState) :
    runProgram wd (FState.readable Content.parseFail) o =
      Except.error (RunErr.fatal [titleChunk wd, overviewChunk]) ∧
    runProgram wd FState.unreadable FState.absent =
      Except.ok ([titleChunk wd, overviewChunk] ++
        [usageChunkA, usageChunkB, troubleChunk]) ∧
    (∀ (t : List (String × TopVal)) (bs : List Block),
      lookupKey t "variable" = some (TopVal.blockList bs) →
      runProgram wd (FState.readable (Content.parsed t))
          (FState.readable Content.parseFail) =
        Except.error (RunErr.fatal
          ([titleChunk wd, overviewChunk] ++ inputSection bs))) := by
  refine ⟨rfl, rfl, ?_⟩
  intro t bs h
  simp only [runProgram, handleSection, existsFn, h]
  rfl

/-- C4 witness: the amended behaviour evaluated at concrete inputs. -/
theorem c4_witness :
    runProgram "m" (FState.readable Content.parseFail) FState.absent =
      Except.error (RunErr.fatal [titleChunk "m", overviewChunk]) ∧
    runProgram "m" FState.unreadable FState.absent =
      Except.ok ([titleChunk "m", overviewChunk] ++
        [usageChunkA, usageChunkB, troubleChunk]) ∧
    runProgram "m" (FState.readable (Content.parsed
        [("variable", TopVal.blockList [])]))
        (FState.readable Content.parseFail) =
      Except.error (RunErr.fatal
        ([titleChunk "m", overviewChunk] ++ inputSection [])) :=
  ⟨(c4_error_handling "m" FState.absent).1,
   (c4_error_handling "m" FState.absent).2.1,
   (c4_error_handling "m" FState.absent).2.2
     [("variable", TopVal.blockList [])] [] (by decide)⟩

/-- C5: exists() stats the constant variablesFilename instead of its
argument, contradicting its own doc comment ("exists returns false if the
given file does not exist").  Consequently, when variables.tf is absent and
outputs.tf is present, readable and parses to an output block, the run
terminates normally WITHOUT rendering any Output section: the emitted chunks
are just title, Overview, Usage and Troubleshooting. -/
theorem c5_code_bug :
    isOk (runProgram "m" FState.absent (FState.readable (Content.parsed
      [("output", TopVal.blockList
        [[("o", [[("description", FieldValue.str "d")]])]])]))) = true ∧
    chunksOf (runProgram "m" FState.absent (FState.readable (Content.parsed
      [("output", TopVal.blockList
        [[("o", [[("description", FieldValue.str "d")]])]])]))) =
      [titleChunk "m", overviewChunk, usageChunkA, usageChunkB,
       troubleChunk] ∧
    (chunksOf (runProgram "m" FState.absent (FState.readable (Content.parsed
      [("output", TopVal.blockList
        [[("o", [[("description", FieldValue.str "d")]])]])])))).count
      outputHeadingChunk = 0 := by
  decide

/-- C8: when variables.tf is readable and parses to a top-level map WITHOUT
a "variable" key (e.g. an empty variables.tf), the run dies of a runtime
panic (`vars.([]map[string]interface\x7b\x7d)` on a nil interface — the !ok
branch only logs and falls through), having printed only the title and the
Overview heading; no empty Input table is rendered. -/
theorem c8_code_bug :
    isPanicked (runProgram "m" (FState.readable (Content.parsed []))
      FState.absent) = true ∧
    chunksOf (runProgram "m" (FState.readable (Content.parsed []))
      FState.absent) = [titleChunk "m", overviewChunk] := by
  decide

/-- C6 counterexample: a Description cell containing a markdown pipe is not
escaped by the renderer — the rendered row has 7 pipes while the fixed
5-column layout (header line) has 6, so the cell value breaks the table
structure. -/
theorem c6_counterexample :
    pipeCount (renderInputRow ⟨"n", "a|b", "t", "d", false, false⟩) = 7 ∧
    pipeCount inputColsChunk = 6 ∧
    pipeCount (renderInputRow ⟨"n", "a|b", "t", "d", false, false⟩) ≠
      pipeCount inputColsChunk := by
  decide

/-- C6 (amended): the renderer emits the fixed column set per table type
(Input: Name, Description, Type, Default, Required; Output: Name,
Description, Sensitive).  Substituted cell values are HTML-entity-escaped
by html/template, but the markdown pipe is NOT escaped; the table structure
is intact (6 separators per input row, 4 per output row, matching the
headers) exactly when the cell values themselves contain no pipe. -/
theorem c6_renderer (r : HclVar)
    (hn : pipeCount r.Name = 0) (hd : pipeCount r.Description = 0)
    (ht : pipeCount r.VarType = 0) (hv : pipeCount r.DefaultVal = 0) :
    pipeCount (renderInputRow r) = 6 ∧ pipeCount (renderOutputRow r) = 4 ∧
    inputColsChunk = "| Name | Description | Type | Default | Required |\n" ∧
    outputColsChunk = "| Name | Description | Sensitive |\n" := by
  refine ⟨?_, ?_, rfl, rfl⟩
  · simp only [renderInputRow, pipeCount_append, pipeCount_htmlEscape]
    rw [hn, hd, ht, hv]
    cases hr : r.Required
    · decide
    · decide
  · simp only [renderOutputRow, pipeCount_append, pipeCount_htmlEscape]
    rw [hn, hd]
    cases hs : r.Sensitive
    · decide
    · decide

/-- C6 witness: the amended renderer property evaluated on a concrete
pipe-free row. -/
theorem c6_witness :
    pipeCount "n" = 0 ∧ pipeCount "some words" = 0 ∧ pipeCount "string" = 0 ∧
    pipeCount "x" = 0 ∧
    (pipeCount (renderInputRow ⟨"n", "some words", "string", "x", true, true⟩) = 6 ∧
     pipeCount (renderOutputRow ⟨"n", "some words", "string", "x", true, true⟩) = 4 ∧
     inputColsChunk = "| Name | Description | Type | Default | Required |\n" ∧
     outputColsChunk = "| Name | Description | Sensitive |\n") :=
  ⟨by decide, by decide, by decide, by decide,
   c6_renderer ⟨"n", "some words", "string", "x", true, true⟩
     (by decide) (by decide) (by decide) (by decide)⟩

/-- C3 counterexample: when variables.tf is absent (and outputs.tf too) the
run ends normally but its text contains NO Input heading — the five section
headings do not appear regardless of the presence of the input files; only
Overview, Usage and Troubleshooting are unconditional. -/
theorem c3_counterexample :
    isOk (runProgram "m" FState.absent FState.absent) = true ∧
    (chunksOf (runProgram "m" FState.absent FState.absent)).count
      inputHeadingChunk = 0 ∧
    (chunksOf (runProgram "m" FState.absent FState.absent)).count
      overviewChunk = 1 := by
  decide

/-- C3 (amended): when both files are present, readable and parse to
top-level maps carrying the expected "variable"/"output" block lists, the
emitted chunks are title, Overview, Input section, Output section, Usage,
Troubleshooting in that order, and each of the five section headings is
emitted exactly once. -/
theorem c3_headings (wd : String) (t1 t2 : List (String × TopVal))
    (bs1 bs2 : List Block)
    (h1 : lookupKey t1 "variable" = some (TopVal.blockList bs1))
    (h2 : lookupKey t2 "output" = some (TopVal.blockList bs2)) :
    chunksOf (runProgram wd (FState.readable (Content.parsed t1))
        (FState.readable (Content.parsed t2))) =
      (([titleChunk wd, overviewChunk] ++ inputSection bs1) ++
        outputSection bs2) ++ [usageChunkA, usageChunkB, troubleChunk] ∧
    (chunksOf (runProgram wd (FState.readable (Content.parsed t1))
        (FState.readable (Content.parsed t2)))).count overviewChunk = 1 ∧
    (chunksOf (runProgram wd (FState.readable (Content.parsed t1))
        (FState.readable (Content.parsed t2)))).count inputHeadingChunk = 1 ∧
    (chunksOf (runProgram wd (FState.readable (Content.parsed t1))
        (FState.readable (Content.parsed t2)))).count outputHeadingChunk = 1 ∧
    (chunksOf (runProgram wd (FState.readable (Content.parsed t1))
        (FState.readable (Content.parsed t2)))).count usageChunkA = 1 ∧
    (chunksOf (runProgram wd (FState.readable (Content.parsed t1))
        (FState.readable (Content.parsed t2)))).count troubleChunk = 1 := by
  have hch : chunksOf (runProgram wd (FState.readable (Content.parsed t1))
        (FState.readable (Content.parsed t2))) =
      (([titleChunk wd, overviewChunk] ++ inputSection bs1) ++
        outputSection bs2) ++ [usageChunkA, usageChunkB, troubleChunk] := by
    rw [run_both_ok wd t1 t2 bs1 bs2 h1 h2]
    rfl
  refine ⟨hch, ?_, ?_, ?_, ?_, ?_⟩ <;>
    (rw [hch]
     simp only [inputSection, outputSection, List.count_append]
     rw [count_rows_input _ _ (by decide), count_rows_output _ _ (by decide),
       count_two _ _ _ (ne_of_data_at 2 (by rw [titleChunk_data2]; decide))]
     decide)

/-- C3 witness: the amended heading property evaluated at concrete parsed
inputs. -/
theorem c3_witness :
    chunksOf (runProgram "m"
        (FState.readable (Content.parsed [("variable", TopVal.blockList [])]))
        (FState.readable (Content.parsed [("output", TopVal.blockList [])]))) =
      (([titleChunk "m", overviewChunk] ++ inputSection []) ++
        outputSection []) ++ [usageChunkA, usageChunkB, troubleChunk] ∧
    (chunksOf (runProgram "m"
        (FState.readable (Content.parsed [("variable", TopVal.blockList [])]))
        (FState.readable (Content.parsed [("output", TopVal.blockList [])])))).count
      overviewChunk = 1 ∧
    (chunksOf (runProgram "m"
        (FState.readable (Content.parsed [("variable", TopVal.blockList [])]))
        (FState.readable (Content.parsed [("output", TopVal.blockList [])])))).count
      inputHeadingChunk = 1 ∧
    (chunksOf (runProgram "m"
        (FState.readable (Content.parsed [("variable", TopVal.blockList [])]))
        (FState.readable (Content.parsed [("output", TopVal.blockList [])])))).count
      outputHeadingChunk = 1 ∧
    (chunksOf (runProgram "m"
        (FState.readable (Content.parsed [("variable", TopVal.blockList [])]))
        (FState.readable (Content.parsed [("output", TopVal.blockList [])])))).count
      usageChunkA = 1 ∧
    (chunksOf (runProgram "m"
        (FState.readable (Content.parsed [("variable", TopVal.blockList [])]))
        (FState.readable (Content.parsed [("output", TopVal.blockList [])])))).count
      troubleChunk = 1 :=
  c3_headings "m" [("variable", TopVal.blockList [])]
    [("output", TopVal.blockList [])] [] [] (by decide) (by decide)

end Tfreadme
